import Mathlib

/-!
# Verification of the CatFeeder Active-Component LED engine

Shallow embedding of the LED display engine of the `cat_feeder` firmware
(`src/esp8266_code`), covering the animated-node model (`leds.hpp`,
`leds_structs.hpp`), the Panel engine (`active_components.cpp/.hpp`),
the pixel primitive layer (`leds.cpp`) and the progress helper
(`my_utils.hpp`).

Machine integers are modelled as `Nat`/`Int` with explicit reductions
modulo `2^w` exactly where the C++ code relies on unsigned wraparound or
a narrowing cast; the millisecond clock `millis()` is passed in as an
explicit `now : Nat` argument.
-/

namespace CatFeeder

/-- `LED_NUMBER` from `config.hpp` (line 62): number of LEDs in the strip. -/
def LED_NUMBER : Nat := 30

/-- `LED_TOTAL_CMDS` from `active_components.hpp` (line 30):
`static constexpr uint16_t LED_TOTAL_CMDS = LED_NUMBER;` — the total size of
the shared `_led_commands` buffer.  Note that it equals `LED_NUMBER`, so the
"temporary command" region `[LED_NUMBER, LED_TOTAL_CMDS)` is empty. -/
def LED_TOTAL_CMDS : Nat := LED_NUMBER

/-- `BOTTOM_STRIP_SIZE` (`config.hpp` line 87 and the local constexpr in
`Panel::data_transmission`): LEDs 0-14. -/
def BOTTOM_STRIP_SIZE : Nat := 15

/-- `TOP_STRIP_START` (`config.hpp` line 88 and the local constexpr in
`Panel::data_transmission`): LEDs 15-29. -/
def TOP_STRIP_START : Nat := 15

/-- `MAX_TRANSMISSION_LEDS` local constexpr in `Panel::data_transmission`. -/
def MAX_TRANSMISSION_LEDS : Nat := 5

/-- `Component::_COUNT` from `active_components.hpp`: the enum lists
Clock, WifiStatus, MotorLeft, MotorRight, Bluetooth, Server, Error. -/
def COMPONENT_COUNT : Nat := 7

/-- `uint32_t` subtraction `a - b` (wraparound modulo `2^32`), as used by
`TickAnimation::tick` (`now - last_update_ms`) and by the expiry check in
`Panel::render` (`now - startTime`).  Inputs are millisecond counters
already below `2^32`. -/
def usub32 (a b : Nat) : Nat := (a + 2 ^ 32 - b) % 2 ^ 32

/-- Narrowing conversion of a C++ integer value to `int16_t`
(wraps modulo `2^16` into `[-32768, 32767]`), used for the
`(int16_t)new_pos` cast inside `_move_pixel` and for the `int16_t`
parameter of `_clamp_index_inclusif`. -/
def toInt16 (x : Int) : Int := (x + 32768) % 65536 - 32768

/-- `LED::Colour` (`leds_structs.hpp`): four 8-bit channels. -/
structure Colour where
  r : Nat
  g : Nat
  b : Nat
  w : Nat
deriving DecidableEq, Repr

instance : Inhabited Colour := ⟨⟨0, 0, 0, 0⟩⟩

/-- `LED::TickAnimation` (`leds_structs.hpp`): interval timer with an
edge-triggered "ticked since last check" flag. -/
structure TickAnimation where
  interval_ms : Nat
  last_update_ms : Nat
  current_frame : Nat
  _ticked_since_last_check : Bool
deriving DecidableEq, Repr

instance : Inhabited TickAnimation := ⟨⟨100, 0, 0, false⟩⟩

/-- `TickAnimation::tick()`: if `now - last_update_ms >= interval_ms`
(unsigned 32-bit arithmetic), increment the frame counter, record `now`,
and raise the one-shot flag.  `millis()` is the explicit `now` argument. -/
def TickAnimation.tick (t : TickAnimation) (now : Nat) : TickAnimation :=
  if t.interval_ms ≤ usub32 now t.last_update_ms then
    { t with current_frame := (t.current_frame + 1) % 2 ^ 32
           , last_update_ms := now
           , _ticked_since_last_check := true }
  else t

/-- `TickAnimation::ticked()`: returns the flag and clears it
(returned as a pair `(result, updated timer)`). -/
def TickAnimation.ticked (t : TickAnimation) : Bool × TickAnimation :=
  (t._ticked_since_last_check, { t with _ticked_since_last_check := false })

/-- `LED::ColourPos` (`leds_structs.hpp`): a positionable animated node. -/
structure ColourPos where
  pos : Nat
  colour : Colour
  pos_step : Int
  node_enabled : Bool
  disable_on_complete : Bool
  tick_animation : TickAnimation
deriving DecidableEq, Repr

instance : Inhabited ColourPos :=
  ⟨⟨0, default, 0, true, false, default⟩⟩

/-- `LED::_clamp_index_inclusif` (`leds.hpp`): clamp an `int16_t` index to
the inclusive range `[0, LED_NUMBER-1]`; out-of-range values become
`LED_NUMBER - 1`. -/
def _clamp_index_inclusif (count : Int) : Int :=
  if count < 0 ∨ (LED_NUMBER : Int) ≤ count then (LED_NUMBER : Int) - 1
  else count

/-- The unclamped candidate position `(int32_t)item.pos + (int32_t)item.pos_step`
computed inside `LED::_move_pixel` (`leds.hpp` line 334). -/
def move_pixel_new_pos (item : ColourPos) : Int :=
  (item.pos : Int) + item.pos_step

/-- The wrap/disable trigger condition of `LED::_move_pixel`
(`leds.hpp` lines 345-346):
`(pos_step >= 0 && new_pos > LED_NUMBER - 1) || (pos_step < 0 && new_pos < 0)`. -/
def move_pixel_edge_cond (item : ColourPos) : Prop :=
  (0 ≤ item.pos_step ∧ (LED_NUMBER : Int) - 1 < move_pixel_new_pos item) ∨
  (item.pos_step < 0 ∧ move_pixel_new_pos item < 0)

instance (item : ColourPos) : Decidable (move_pixel_edge_cond item) := by
  unfold move_pixel_edge_cond; infer_instance

/-- Whether the `tick(); if (!ticked()) return;` gate at the top of
`_move_pixel` lets the movement happen at time `now`: the flag after
`tick` (which is the old flag, or freshly raised by the interval test). -/
def tick_fired (t : TickAnimation) (now : Nat) : Bool :=
  (t.tick now)._ticked_since_last_check

/-- `LED::_move_pixel` (`leds.hpp` lines 325-357).  The second argument
`pos` mirrors the source's unused compatibility parameter; `now` is the
value `millis()` would return during the embedded `tick()` call. -/
def _move_pixel (item : ColourPos) (pos : Nat) (now : Nat) : ColourPos :=
  let ta1 := item.tick_animation.tick now
  let tk := ta1.ticked
  let item1 := { item with tick_animation := tk.2 }
  if tk.1 = false then item1
  else
    let new_pos : Int := (item1.pos : Int) + item1.pos_step
    let new_pos_clamped : Int := _clamp_index_inclusif (toInt16 new_pos)
    let item2 := { item1 with pos := new_pos_clamped.toNat }
    if (0 ≤ item2.pos_step ∧ (LED_NUMBER : Int) - 1 < new_pos) ∨
       (item2.pos_step < 0 ∧ new_pos < 0) then
      if item2.disable_on_complete then { item2 with node_enabled := false }
      else if 0 ≤ item2.pos_step then { item2 with pos := 0 }
      else { item2 with pos := LED_NUMBER - 1 }
    else item2

/-- `MyUtils::ActiveComponents::LEDCommand` (`active_components.hpp`):
one slot of the shared command buffer `_led_commands`. -/
structure LEDCommand where
  pos : Nat
  colour : Colour
  duration : Nat
  startTime : Nat
  active : Bool
deriving DecidableEq, Repr

instance : Inhabited LEDCommand := ⟨⟨0, default, 0, 0, false⟩⟩

/-- `LED_DEFAULT_BACKGROUND` (`active_components.cpp` lines 48-54):
`LEDCommand(0, Colours::Black, 0, 0, false)`.  `Colours::Black` lives in
the colour table header that is not present under `src/`; black is
`{0,0,0,0}` per the 4-channel colour model. -/
def LED_DEFAULT_BACKGROUND : LEDCommand :=
  { pos := 0, colour := ⟨0, 0, 0, 0⟩, duration := 0, startTime := 0, active := false }

/-- The command buffer `_led_commands[LED_TOTAL_CMDS]`, modelled as a list
of length `LED_TOTAL_CMDS` (reads beyond the end default to an inactive
zero command, matching the zero-initialised C++ array). -/
abbrev CmdBuffer := List LEDCommand

/-- `Panel::build_base_frame` (`active_components.cpp` lines 66-79): set up
slots `0 .. LED_NUMBER-1` with `pos := i`, the default background colour,
`active := true` and `duration := 0` (infinite). -/
def Panel.build_base_frame (cmds : CmdBuffer) : CmdBuffer :=
  (List.range LED_NUMBER).foldl
    (fun cs i =>
      cs.set i { cs.getD i default with
                   pos := i
                 , colour := LED_DEFAULT_BACKGROUND.colour
                 , active := true
                 , duration := 0 })
    cmds

/-- `Panel::allocate_led_command` (`active_components.cpp` lines 334-348):
linear scan over the temporary region `[LED_NUMBER, LED_TOTAL_CMDS)` for the
first slot with `active == false`; that slot's `pos`, `duration`,
`startTime`, `active` fields are cleared and its index is returned together
with the updated buffer (the C++ returns a pointer into the buffer).
Returns `none` when no slot in that region is free. -/
def Panel.allocate_led_command (cmds : CmdBuffer) : Option (Nat × CmdBuffer) :=
  match (List.range' LED_NUMBER (LED_TOTAL_CMDS - LED_NUMBER)).find?
      (fun i => !(cmds.getD i default).active) with
  | none => none
  | some i =>
      some (i, cmds.set i { cmds.getD i default with
                              pos := 0, duration := 0, startTime := 0, active := false })

/-- The index-resolution step of `Panel::get` (`active_components.cpp`
lines 106-114): a component index at or above `Component::_COUNT` falls
back to index 0 (the Clock node); otherwise the index is used as is.
Component values are modelled by their numeric `uint8_t` index. -/
def Panel.resolve (c : Nat) : Nat :=
  if COMPONENT_COUNT ≤ c then 0 else c

/-- `Panel::get` (`active_components.cpp` lines 106-114) over a node
array `nodes` (the `_nodes` static array, 7 entries). -/
def Panel.get (nodes : List ColourPos) (c : Nat) : ColourPos :=
  nodes.getD (Panel.resolve c) default

/-- `Panel::enable` (`active_components.cpp` lines 116-119):
`get(c).node_enabled = true`. -/
def Panel.enable (nodes : List ColourPos) (c : Nat) : List ColourPos :=
  nodes.set (Panel.resolve c) { Panel.get nodes c with node_enabled := true }

/-- `Panel::disable` (`active_components.cpp` lines 121-124). -/
def Panel.disable (nodes : List ColourPos) (c : Nat) : List ColourPos :=
  nodes.set (Panel.resolve c) { Panel.get nodes c with node_enabled := false }

/-- `Panel::set_colour` (`active_components.cpp` lines 230-233). -/
def Panel.set_colour (nodes : List ColourPos) (c : Nat) (colour : Colour) :
    List ColourPos :=
  nodes.set (Panel.resolve c) { Panel.get nodes c with colour := colour }

/-- `Panel::set_position` (`active_components.cpp` lines 235-238). -/
def Panel.set_position (nodes : List ColourPos) (c : Nat) (pos : Nat) :
    List ColourPos :=
  nodes.set (Panel.resolve c) { Panel.get nodes c with pos := pos }

/-- `Panel::set_step` (`active_components.cpp` lines 240-243). -/
def Panel.set_step (nodes : List ColourPos) (c : Nat) (step : Int) :
    List ColourPos :=
  nodes.set (Panel.resolve c) { Panel.get nodes c with pos_step := step }

/-- `Panel::activity` (`active_components.cpp` lines 135-162): no-op when
`active` is false; otherwise compute the adjacent position (uint16
arithmetic, reset to 0 when `>= LED_NUMBER`), allocate a temporary command
(dropping the ping when the buffer is full) and fill it with the node's
colour and a 1000 ms duration starting at `now`. -/
def Panel.activity (nodes : List ColourPos) (cmds : CmdBuffer) (c : Nat)
    (active : Bool) (now : Nat) : CmdBuffer :=
  if active = false then cmds
  else
    let item := Panel.get nodes c
    let pos0 := (item.pos + 1) % 2 ^ 16
    let pos := if LED_NUMBER ≤ pos0 then 0 else pos0
    match Panel.allocate_led_command cmds with
    | none => cmds
    | some (j, cmds1) =>
        cmds1.set j { pos := pos, colour := item.colour, duration := 1000
                    , startTime := now, active := true }

/-- The top-strip start position computed in `Panel::data_transmission`
(`active_components.cpp` line 195):
`TOP_STRIP_START + (BOTTOM_STRIP_SIZE - 1 - bottom_pos)`. -/
def dt_top_start (bottom_pos : Nat) : Nat :=
  TOP_STRIP_START + (BOTTOM_STRIP_SIZE - 1 - bottom_pos)

/-- The per-step bounds check of the `data_transmission` walk
(`active_components.cpp` line 207):
`led_pos < TOP_STRIP_START || led_pos >= LED_NUMBER`. -/
def dt_out_of_bounds (led_pos : Nat) : Bool :=
  decide (led_pos < TOP_STRIP_START) || decide (LED_NUMBER ≤ led_pos)

/-- The `for (i = 0; i < MAX_TRANSMISSION_LEDS; ++i)` walk of
`Panel::data_transmission` (`active_components.cpp` lines 202-226),
written as recursion on the remaining iteration count `fuel`
(`fuel = MAX_TRANSMISSION_LEDS - i`).  Each step computes
`led_pos = top_start - i`, breaks when the bounds check fails, returns on
allocation failure, and otherwise fills the allocated slot: the first
`shown` steps with the component's colour, the rest with the background
colour, each with a 2000 ms duration starting at `now`. -/
def dt_loop (colour : Colour) (shown top_start now : Nat) :
    Nat → Nat → CmdBuffer → CmdBuffer
  | 0, _, cmds => cmds
  | fuel + 1, i, cmds =>
      let led_pos := top_start - i
      if dt_out_of_bounds led_pos then cmds
      else
        match Panel.allocate_led_command cmds with
        | none => cmds
        | some (j, cmds1) =>
            let cmd : LEDCommand :=
              { pos := led_pos
              , colour := if i < shown then colour else LED_DEFAULT_BACKGROUND.colour
              , duration := 2000
              , startTime := now
              , active := true }
            dt_loop colour shown top_start now fuel (i + 1) (cmds1.set j cmd)

/-- `Panel::data_transmission` (`active_components.cpp` lines 178-227):
read the component's node (through `get`'s fallback resolution); if its
position is not within the bottom strip, log and return with the command
buffer untouched; otherwise map to the top strip, clamp `size` to
`MAX_TRANSMISSION_LEDS` and run the emission walk.  Only the command
buffer is ever written, so the function returns just the updated buffer. -/
def Panel.data_transmission (nodes : List ColourPos) (cmds : CmdBuffer)
    (comp : Nat) (size : Nat) (now : Nat) : CmdBuffer :=
  let component_node := Panel.get nodes comp
  let bottom_pos := component_node.pos
  if BOTTOM_STRIP_SIZE ≤ bottom_pos then cmds
  else
    let top_start := dt_top_start bottom_pos
    let shown := min size MAX_TRANSMISSION_LEDS
    dt_loop component_node.colour shown top_start now MAX_TRANSMISSION_LEDS 0 cmds

/-- `Panel::tick` (`active_components.cpp` lines 245-253): every node with
`node_enabled` set is advanced by `_move_pixel(n, n.pos)`; disabled nodes
are skipped. -/
def Panel.tick (nodes : List ColourPos) (now : Nat) : List ColourPos :=
  nodes.map (fun n => if n.node_enabled = false then n else _move_pixel n n.pos now)

/-- A finite sequence of `Panel::tick` calls at the given clock values. -/
def Panel.tick_seq (nodes : List ColourPos) (times : List Nat) : List ColourPos :=
  times.foldl Panel.tick nodes

/-- State of the pixel primitive layer (`leds.cpp`): the NeoPixel buffer
(`LedStrip` pixels), how many times `LedStrip.show()` has been invoked,
and the `forcedColorEndTime` global written by `_led_process_timer`. -/
structure StripState where
  pixels : List Colour
  shows : Nat
  forcedColorEndTime : Nat
deriving DecidableEq, Repr

/-- `LED::_led_process_timer` (`leds.hpp` lines 299-306): a positive
duration arms `forcedColorEndTime := millis() + duration` (uint32), zero
clears it. -/
def _led_process_timer (strip : StripState) (duration now : Nat) : StripState :=
  if 0 < duration then
    { strip with forcedColorEndTime := (now + duration) % 2 ^ 32 }
  else
    { strip with forcedColorEndTime := 0 }

/-- `LED::led_set_led_position` (`leds.cpp` lines 121-139): clamp the index
via `_clamp_index_inclusif` (through its `int16_t` parameter), write the
packed colour into the pixel buffer, call `LedStrip.show()` only when
`refresh` is set, then run `_led_process_timer duration`. -/
def led_set_led_position (strip : StripState) (led_index : Nat)
    (colour : Colour) (duration : Nat) (refresh : Bool) (now : Nat) : StripState :=
  let led_index_cleaned := (_clamp_index_inclusif (toInt16 (led_index : Int))).toNat
  let strip := { strip with pixels := strip.pixels.set led_index_cleaned colour }
  let strip := if refresh then { strip with shows := strip.shows + 1 } else strip
  _led_process_timer strip duration now

/-- `LED::led_refresh` (`leds.hpp` lines 462-465): `LedStrip.show()`. -/
def led_refresh (strip : StripState) : StripState :=
  { strip with shows := strip.shows + 1 }

/-- Step 1 of `Panel::render` (`active_components.cpp` lines 272-279):
write every base-frame slot's colour into the pixel buffer (no refresh),
skipping any index at or beyond the command-buffer length. -/
def Panel.render_base (cmds : CmdBuffer) (strip : StripState) (now : Nat) :
    StripState :=
  (List.range LED_NUMBER).foldl
    (fun s i =>
      if LED_TOTAL_CMDS ≤ i then s
      else led_set_led_position s i (cmds.getD i default).colour 0 false now)
    strip

/-- Step 2 of `Panel::render` (`active_components.cpp` lines 282-301):
overlay every enabled node's colour at its position in the pixel buffer
only, skipping out-of-range positions. -/
def Panel.render_nodes (nodes : List ColourPos) (strip : StripState)
    (now : Nat) : StripState :=
  (List.range COMPONENT_COUNT).foldl
    (fun s node_idx =>
      let n := nodes.getD node_idx default
      if n.node_enabled = false then s
      else if LED_NUMBER ≤ n.pos then s
      else if LED_TOTAL_CMDS ≤ n.pos then s
      else led_set_led_position s n.pos n.colour 0 false now)
    strip

/-- Step 3 of `Panel::render` (`active_components.cpp` lines 305-325):
walk the temporary region `[LED_NUMBER, LED_TOTAL_CMDS)`; inactive slots
are skipped, expired ones (`now - startTime >= duration`, `duration > 0`,
uint32 arithmetic) and out-of-range ones are deactivated in place, the
rest are overlaid into the pixel buffer. -/
def Panel.render_cmds (cmds : CmdBuffer) (strip : StripState) (now : Nat) :
    CmdBuffer × StripState :=
  (List.range' LED_NUMBER (LED_TOTAL_CMDS - LED_NUMBER)).foldl
    (fun p i =>
      let cmd := p.1.getD i default
      if cmd.active = false then p
      else if 0 < cmd.duration ∧ cmd.duration ≤ usub32 now cmd.startTime then
        (p.1.set i { cmd with active := false }, p.2)
      else if LED_NUMBER ≤ cmd.pos then
        (p.1.set i { cmd with active := false }, p.2)
      else
        (p.1, led_set_led_position p.2 cmd.pos cmd.colour 0 false now))
    (cmds, strip)

/-- `Panel::render` (`active_components.cpp` lines 267-327): the
three-pass composite followed by the single `led_refresh()` flush.
Returns the (possibly updated) command buffer and the strip state. -/
def Panel.render (nodes : List ColourPos) (cmds : CmdBuffer)
    (strip : StripState) (now : Nat) : CmdBuffer × StripState :=
  let strip1 := Panel.render_base cmds strip now
  let strip2 := Panel.render_nodes nodes strip1 now
  let p := Panel.render_cmds cmds strip2 now
  (p.1, led_refresh p.2)

/-- Fuel-driven floor-log2 on `Nat` (the fuel bounds the bit length;
`log2fuel 64 n` is exact for every `n < 2^64`). -/
def log2fuel : Nat → Nat → Nat
  | 0, _ => 0
  | fuel + 1, n => if n ≤ 1 then 0 else log2fuel fuel (n / 2) + 1

/-- Is `2^e ≤ num/den` (for `num, den > 0`)? -/
def pow2leFrac (e : Int) (num den : Nat) : Bool :=
  if 0 ≤ e then decide (den * 2 ^ e.toNat ≤ num)
  else decide (den ≤ num * 2 ^ (-e).toNat)

/-- `⌊log2 (num/den)⌋` for a positive fraction with `num, den < 2^64`:
the unique `e` with `2^e ≤ num/den < 2^(e+1)`. -/
def fracLog2 (num den : Nat) : Int :=
  let e0 : Int := (log2fuel 64 num : Int) - (log2fuel 64 den : Int)
  if pow2leFrac e0 num den then e0 else e0 - 1

/-- Round the non-negative fraction `a / b` to the nearest integer,
ties to even (the IEEE-754 default rounding). -/
def roundHalfEven (a b : Nat) : Nat :=
  let t := a / b
  let r := a % b
  if 2 * r < b then t
  else if b < 2 * r then t + 1
  else if t % 2 = 0 then t else t + 1

/-- An IEEE-754 binary32 (`float`) value in the normal range, represented
exactly: the value is `(-1)^sign * mant * 2^(exp - 23)` with
`mant ∈ [2^23, 2^24)`, or zero encoded as `mant = 0`.  Subnormals,
overflow and NaN are outside the modelled domain; every `float` arising
in `leds_for_progress` from `int16_t` inputs is normal or zero. -/
structure F32 where
  sign : Bool
  mant : Nat
  exp : Int
deriving DecidableEq, Repr

/-- Round the exact fraction `± num / den` (`den > 0`) to the nearest
binary32 value, round-to-nearest-even: scale the magnitude into
`[2^23, 2^24)`, round the 24-bit mantissa, and renormalise a carry-out.
This is the correctly-rounded result IEEE-754 prescribes for a `float`
division `num / den` (and, with a power-of-two `den`, for a `float`
multiplication given exact operands). -/
def f32ofFrac (sign : Bool) (num den : Nat) : F32 :=
  if num = 0 then ⟨false, 0, 0⟩
  else
    let e : Int := fracLog2 num den
    let m : Nat :=
      if e ≤ 23 then roundHalfEven (num * 2 ^ (23 - e).toNat) den
      else roundHalfEven num (den * 2 ^ (e - 23).toNat)
    if m = 2 ^ 24 then ⟨sign, 2 ^ 23, e + 1⟩ else ⟨sign, m, e⟩

/-- Correctly-rounded binary32 multiplication of a `float` `x` by a
natural number `t` that converts to `float` exactly (here `|t| < 2^15`),
with the result's sign supplied by the caller: the exact product is
`mant * t * 2^(exp - 23)`, rounded once to 24 bits. -/
def f32mulNat (x : F32) (sign : Bool) (t : Nat) : F32 :=
  let num := x.mant * t
  if 0 ≤ x.exp - 23 then f32ofFrac sign (num * 2 ^ (x.exp - 23).toNat) 1
  else f32ofFrac sign num (2 ^ (23 - x.exp).toNat)

/-- `static_cast<T>` from `float` to an integer type: truncation toward
zero (floor of the magnitude, then the sign). -/
def f32truncToInt (x : F32) : Int :=
  let n : Nat :=
    if 0 ≤ x.exp - 23 then x.mant * 2 ^ (x.exp - 23).toNat
    else x.mant / 2 ^ (23 - x.exp).toNat
  if x.sign then -(n : Int) else (n : Int)

/-- `MyUtils::leds_for_progress` (`my_utils.hpp` lines 39-47), at the
`int16_t` instantiation used by `display_percentage`, with the `float`
route modelled bit-exactly:
`float percent = (float)current / (float)max;` then
`static_cast<T>(percent * (float)total_leds)`.  `int16_t` values convert
to `float` exactly; the division and the multiplication are each
correctly rounded to binary32 (round-to-nearest-even, no excess
precision), and the final cast truncates toward zero.  The `max == 0`
guard returns 0. -/
def leds_for_progress (current mx total_leds : Int) : Int :=
  if mx = 0 then 0
  else
    let qsign := xor (decide (current < 0)) (decide (mx < 0))
    let percent := f32ofFrac qsign current.natAbs mx.natAbs
    let psign := xor percent.sign (decide (total_leds < 0))
    f32truncToInt (f32mulNat percent psign total_leds.natAbs)

/-- The specification's description of the helper, for comparison:
"returns `round_down(current/max * totalLeds)`; guards `max == 0` by
returning 0".  `round_down` (floor) of the exact rational
`(current * total_leds) / mx` is `Int.fdiv`. -/
def leds_for_progress_spec (current mx total_leds : Int) : Int :=
  if mx = 0 then 0
  else Int.fdiv (current * total_leds) mx

/-!
## Helper lemmas
-/

/-- The temporary region `[LED_NUMBER, LED_TOTAL_CMDS)` of the command
buffer is empty (`LED_TOTAL_CMDS = LED_NUMBER`), so the first-fit scan
finds nothing, whatever the buffer contents. -/
lemma allocate_none_aux (cmds : CmdBuffer) :
    Panel.allocate_led_command cmds = none := rfl

lemma dt_loop_eq_aux (colour : Colour) (shown top_start now : Nat) :
    ∀ (fuel i : Nat) (cmds : CmdBuffer),
      dt_loop colour shown top_start now fuel i cmds = cmds := by
  intro fuel
  induction fuel with
  | zero => intro i cmds; rfl
  | succ fuel ih =>
      intro i cmds
      simp [dt_loop, allocate_none_aux]

lemma data_transmission_eq_aux (nodes : List ColourPos) (cmds : CmdBuffer)
    (comp size now : Nat) :
    Panel.data_transmission nodes cmds comp size now = cmds := by
  simp [Panel.data_transmission, dt_loop_eq_aux]

lemma clamp_index_bounds (x : Int) :
    0 ≤ _clamp_index_inclusif x ∧ _clamp_index_inclusif x ≤ 29 := by
  unfold _clamp_index_inclusif LED_NUMBER
  split <;> omega

lemma clamp_index_id {x : Int} (h0 : 0 ≤ x) (h1 : x ≤ 29) :
    _clamp_index_inclusif x = x := by
  unfold _clamp_index_inclusif LED_NUMBER
  split <;> omega

lemma toInt16_id {x : Int} (h0 : -32768 ≤ x) (h1 : x ≤ 32767) :
    toInt16 x = x := by
  unfold toInt16
  omega

/-- `_move_pixel` keeps an in-range position in range whether or not the
tick fired. -/
lemma move_pixel_pos_lt (item : ColourPos) (pos now : Nat)
    (h : item.pos < LED_NUMBER) :
    (_move_pixel item pos now).pos < LED_NUMBER := by
  unfold _move_pixel
  have hcl := clamp_index_bounds (toInt16 ((item.pos : Int) + item.pos_step))
  simp only [TickAnimation.ticked, LED_NUMBER] at *
  split
  · simpa using h
  · split
    · split
      · simpa using (by omega : (_clamp_index_inclusif
          (toInt16 ((item.pos : Int) + item.pos_step))).toNat < 30)
      · split <;> simp
    · simpa using (by omega : (_clamp_index_inclusif
        (toInt16 ((item.pos : Int) + item.pos_step))).toNat < 30)

lemma tick_pos_lt (nodes : List ColourPos) (now : Nat)
    (h : ∀ n ∈ nodes, n.pos < LED_NUMBER) :
    ∀ n ∈ Panel.tick nodes now, n.pos < LED_NUMBER := by
  intro n hn
  unfold Panel.tick at hn
  rcases List.mem_map.1 hn with ⟨m, hm, rfl⟩
  by_cases he : m.node_enabled = false
  · simpa [he] using h m hm
  · simpa [he] using move_pixel_pos_lt m m.pos now (h m hm)

lemma tick_seq_pos_lt (times : List Nat) :
    ∀ (nodes : List ColourPos),
      (∀ n ∈ nodes, n.pos < LED_NUMBER) →
      ∀ n ∈ Panel.tick_seq nodes times, n.pos < LED_NUMBER := by
  induction times with
  | nil => intro nodes h n hn; exact h n hn
  | cons t ts ih =>
      intro nodes h n hn
      exact ih (Panel.tick nodes t) (tick_pos_lt nodes t h) n hn

/-!
## Claim theorems
-/

/-- Claim C1 (code bug evidence): `allocate_led_command()` can never
return a slot, whatever the contents of the command buffer.  The claim
(and the spec, and the code's own comments about "temporary commands")
requires a pool of extra slots after the `N` base-frame slots, but
`LED_TOTAL_CMDS = LED_NUMBER` (`active_components.hpp` line 30) makes the
scanned region `[LED_NUMBER, LED_TOTAL_CMDS)` empty, so the allocator
always reports "full". -/
theorem allocate_led_command_always_none (cmds : CmdBuffer) :
    Panel.allocate_led_command cmds = none :=
  allocate_none_aux cmds

/-- Claim C2 (code bug evidence): `data_transmission` never changes the
command buffer — in particular it never illuminates any indicator pixel,
for every component, every transmitted size (including `size > 5` and
`size = 0`), and every clock value, because every allocation inside the
emission walk fails on the empty temporary region. -/
theorem data_transmission_emits_no_commands (nodes : List ColourPos)
    (cmds : CmdBuffer) (comp size now : Nat) :
    Panel.data_transmission nodes cmds comp size now = cmds :=
  data_transmission_eq_aux nodes cmds comp size now

/-- The C3 scenario node: position 13, `step = +1`,
`disableOnComplete = false`, interval 100 ms, timer cleared at t = 0. -/
def c3_node : ColourPos :=
  { pos := 13, colour := ⟨255, 255, 0, 0⟩, pos_step := 1
  , node_enabled := true, disable_on_complete := false
  , tick_animation := ⟨100, 0, 0, false⟩ }

/-- The node after one qualifying tick (t = 100 ms). -/
def c3_after_one : ColourPos := _move_pixel c3_node c3_node.pos 100

/-- The node after a second qualifying tick (t = 200 ms). -/
def c3_after_two : ColourPos := _move_pixel c3_after_one c3_after_one.pos 200

/-- A node sitting at the true high boundary 29 of the 30-pixel strip,
otherwise configured like the C3 scenario node. -/
def c3_boundary_node : ColourPos :=
  { pos := 29, colour := ⟨255, 255, 0, 0⟩, pos_step := 1
  , node_enabled := true, disable_on_complete := false
  , tick_animation := ⟨100, 0, 0, false⟩ }

/-- Claim C3 (counterexample): the claim says that after moving 13 → 14,
the next qualifying tick wraps the node to 0 (out of bounds at 15).  On
the code, `_move_pixel` bounds movement by `LED_NUMBER = 30`
(`leds.hpp` lines 337, 345), not by the 15-pixel bottom strip, so the
second qualifying tick moves the node to 15, not 0. -/
theorem move_pixel_13_no_wrap_at_15 :
    c3_after_one.pos = 14 ∧ c3_after_two.pos = 15 ∧ c3_after_two.pos ≠ 0 := by
  decide

/-- Claim C3 (amended): a node at position 13 with `step = +1` and
`disableOnComplete = false` moves to 14 on one qualifying tick and to 15
on the next (the bottom-strip boundary 14 is not a movement boundary);
the wrap to 0 happens only past the full-strip boundary `LED_NUMBER - 1 = 29`,
e.g. a qualifying tick at position 29 wraps to 0. -/
theorem move_pixel_13_then_15_wrap_at_30 :
    c3_after_one.pos = 14 ∧ c3_after_two.pos = 15 ∧
    (_move_pixel c3_boundary_node c3_boundary_node.pos 100).pos = 0 := by
  decide

/-- Claim C4: starting from positions inside `[0, N-1]` (`N = LED_NUMBER = 30`,
the strip length), every node of the panel still has its position inside
`[0, N-1]` after any finite sequence of `tick()` calls (positions are
`uint16_t`, so `0 ≤ position` is inherent). -/
theorem tick_seq_position_in_range (nodes : List ColourPos)
    (times : List Nat) (n : ColourPos)
    (h : ∀ m ∈ nodes, m.pos < LED_NUMBER)
    (hn : n ∈ Panel.tick_seq nodes times) :
    n.pos < LED_NUMBER :=
  tick_seq_pos_lt times nodes h n hn

/-- Witness for C4 at a concrete panel: the C3 node plus the boundary
node at 29, ticked at t = 100 and t = 200. -/
theorem tick_seq_position_in_range_witness :
    ((Panel.tick_seq [c3_node, c3_boundary_node] [100, 200]).getD 0 default).pos
      < LED_NUMBER :=
  tick_seq_position_in_range [c3_node, c3_boundary_node] [100, 200] _
    (by decide) (by decide)

/-- Claim C5: on a qualifying tick, the wrap/disable edge logic of
`_move_pixel` fires only when the unclamped `newPos = position + step`
lies strictly outside `[0, N-1]` (`N = LED_NUMBER`): (1) the trigger
condition implies `newPos` is out of bounds; (2) when `newPos` is inside
`[0, N-1]` — including when the node merely sits at a boundary — the node
just moves to `newPos` and its `enabled` flag is untouched; (3) on an
out-of-bounds trigger with `disableOnComplete`, the node is disabled and
keeps the clamped position (no wrap); (4)/(5) without `disableOnComplete`
the position wraps to 0 for a positive step and to `N-1` for a negative
step. -/
theorem move_pixel_edge_policy (item : ColourPos) (pos now : Nat)
    (h : tick_fired item.tick_animation now = true) :
    (move_pixel_edge_cond item →
       move_pixel_new_pos item < 0 ∨ (LED_NUMBER : Int) - 1 < move_pixel_new_pos item)
  ∧ (0 ≤ move_pixel_new_pos item → move_pixel_new_pos item ≤ (LED_NUMBER : Int) - 1 →
       (_move_pixel item pos now).pos = (move_pixel_new_pos item).toNat
     ∧ (_move_pixel item pos now).node_enabled = item.node_enabled)
  ∧ (move_pixel_edge_cond item → item.disable_on_complete = true →
       (_move_pixel item pos now).node_enabled = false
     ∧ (_move_pixel item pos now).pos =
         (_clamp_index_inclusif (toInt16 (move_pixel_new_pos item))).toNat)
  ∧ (move_pixel_edge_cond item → item.disable_on_complete = false →
       0 < item.pos_step → (_move_pixel item pos now).pos = 0)
  ∧ (move_pixel_edge_cond item → item.disable_on_complete = false →
       item.pos_step < 0 → (_move_pixel item pos now).pos = LED_NUMBER - 1) := by
  have h' : (item.tick_animation.tick now)._ticked_since_last_check = true := h
  unfold move_pixel_edge_cond move_pixel_new_pos
  refine ⟨?_, ?_, ?_, ?_, ?_⟩
  · intro hc
    unfold LED_NUMBER at *
    rcases hc with ⟨_, h2⟩ | ⟨_, h2⟩ <;> omega
  · intro h0 h1
    have h1' : (item.pos : Int) + item.pos_step ≤ 29 := by
      unfold LED_NUMBER at h1; omega
    simp only [_move_pixel, TickAnimation.ticked, h', Bool.true_eq_false,
      if_false]
    rw [if_neg (by unfold LED_NUMBER; omega)]
    have hid : toInt16 ((item.pos : Int) + item.pos_step) =
        (item.pos : Int) + item.pos_step :=
      toInt16_id (by omega) (by omega)
    rw [hid, clamp_index_id h0 h1']
    exact ⟨rfl, rfl⟩
  · intro hc hd
    simp only [_move_pixel, TickAnimation.ticked, h', Bool.true_eq_false,
      if_false]
    rw [if_pos (by simpa using hc), if_pos (by simpa using hd)]
    exact ⟨rfl, rfl⟩
  · intro hc hd hstep
    simp only [_move_pixel, TickAnimation.ticked, h', Bool.true_eq_false,
      if_false]
    rw [if_pos (by simpa using hc), if_neg (by simp [hd]),
      if_pos (by omega)]
  · intro hc hd hstep
    simp only [_move_pixel, TickAnimation.ticked, h', Bool.true_eq_false,
      if_false]
    rw [if_pos (by simpa using hc), if_neg (by simp [hd]),
      if_neg (by omega)]

/-- Witness for C5: the boundary node of the C3 scenario (position 29,
step +1) at a qualifying tick instant t = 100. -/
theorem move_pixel_edge_policy_witness :
    (move_pixel_edge_cond c3_boundary_node →
       move_pixel_new_pos c3_boundary_node < 0 ∨
       (LED_NUMBER : Int) - 1 < move_pixel_new_pos c3_boundary_node)
  ∧ (0 ≤ move_pixel_new_pos c3_boundary_node →
       move_pixel_new_pos c3_boundary_node ≤ (LED_NUMBER : Int) - 1 →
       (_move_pixel c3_boundary_node 29 100).pos =
         (move_pixel_new_pos c3_boundary_node).toNat
     ∧ (_move_pixel c3_boundary_node 29 100).node_enabled =
         c3_boundary_node.node_enabled)
  ∧ (move_pixel_edge_cond c3_boundary_node →
       c3_boundary_node.disable_on_complete = true →
       (_move_pixel c3_boundary_node 29 100).node_enabled = false
     ∧ (_move_pixel c3_boundary_node 29 100).pos =
         (_clamp_index_inclusif (toInt16 (move_pixel_new_pos c3_boundary_node))).toNat)
  ∧ (move_pixel_edge_cond c3_boundary_node →
       c3_boundary_node.disable_on_complete = false →
       0 < c3_boundary_node.pos_step →
       (_move_pixel c3_boundary_node 29 100).pos = 0)
  ∧ (move_pixel_edge_cond c3_boundary_node →
       c3_boundary_node.disable_on_complete = false →
       c3_boundary_node.pos_step < 0 →
       (_move_pixel c3_boundary_node 29 100).pos = LED_NUMBER - 1) :=
  move_pixel_edge_policy c3_boundary_node 29 100 (by decide)

/-- Claim C6: for a component node at bottom-strip position `p ∈ [0, 14]`,
`data_transmission` computes the top-strip start as
`top = TOP_STRIP_START + (BOTTOM_STRIP_SIZE - 1 - p) = 15 + (14 - p)`;
in particular `p = 0 ↦ 29` and `p = 14 ↦ 15`.  For each walk step
`i < MAX_TRANSMISSION_LEDS`, the source's break condition
(`led_pos < 15 || led_pos >= 30`) holds exactly when the walk has run off
the low end of the top strip (`i > 14 - p`) — the walk stops there with
no wrap — and every step that passes the check addresses a position
inside the top strip `[15, 29]`. -/
theorem data_transmission_top_mapping (p i : Nat)
    (hp : p < BOTTOM_STRIP_SIZE) (hi : i < MAX_TRANSMISSION_LEDS) :
    dt_top_start p = 15 + (14 - p)
  ∧ dt_top_start 0 = 29
  ∧ dt_top_start 14 = 15
  ∧ (dt_out_of_bounds (dt_top_start p - i) = true ↔ 14 - p < i)
  ∧ (i ≤ 14 - p →
       TOP_STRIP_START ≤ dt_top_start p - i ∧ dt_top_start p - i < LED_NUMBER) := by
  unfold dt_top_start dt_out_of_bounds
  unfold TOP_STRIP_START BOTTOM_STRIP_SIZE MAX_TRANSMISSION_LEDS LED_NUMBER at *
  refine ⟨by omega, rfl, rfl, ?_, by omega⟩
  simp only [Bool.or_eq_true, decide_eq_true_eq]
  omega

/-- Witness for C6 at `p = 3`, `i = 2`. -/
theorem data_transmission_top_mapping_witness :
    dt_top_start 3 = 15 + (14 - 3)
  ∧ dt_top_start 0 = 29
  ∧ dt_top_start 14 = 15
  ∧ (dt_out_of_bounds (dt_top_start 3 - 2) = true ↔ 14 - 3 < 2)
  ∧ (2 ≤ 14 - 3 →
       TOP_STRIP_START ≤ dt_top_start 3 - 2 ∧ dt_top_start 3 - 2 < LED_NUMBER) :=
  data_transmission_top_mapping 3 2 (by decide) (by decide)

/-- Claim C7: when the component's node position lies outside the
bottom-strip region `[0, 14]`, `data_transmission` hits the
`bottom_pos >= BOTTOM_STRIP_SIZE` guard and returns before the mapping
and before any allocation: the command buffer (base frame and temporary
pool) is returned untouched, for every size; the node array is never
written by `data_transmission` at all. -/
theorem data_transmission_invalid_pos_noop (nodes : List ColourPos)
    (cmds : CmdBuffer) (comp size now : Nat)
    (h : BOTTOM_STRIP_SIZE ≤ (Panel.get nodes comp).pos) :
    Panel.data_transmission nodes cmds comp size now = cmds := by
  unfold Panel.data_transmission
  rw [if_pos h]

/-- Witness for C7: a single node parked at position 20 (outside the
bottom strip), a fresh base-frame buffer, `size = 3`, `now = 77`. -/
theorem data_transmission_invalid_pos_noop_witness :
    Panel.data_transmission
      [{ pos := 20, colour := ⟨0, 255, 0, 0⟩, pos_step := 0
       , node_enabled := true, disable_on_complete := false
       , tick_animation := ⟨500, 0, 0, false⟩ }]
      (Panel.build_base_frame (List.replicate 30 default)) 0 3 77
      = Panel.build_base_frame (List.replicate 30 default) :=
  data_transmission_invalid_pos_noop _ _ 0 3 77 (by decide)

lemma foldl_shows_invariant {α : Type} (f : StripState → α → StripState)
    (hf : ∀ s a, (f s a).shows = s.shows) :
    ∀ (l : List α) (s : StripState), (l.foldl f s).shows = s.shows := by
  intro l
  induction l with
  | nil => intro s; rfl
  | cons a l ih => intro s; rw [List.foldl_cons, ih, hf]

lemma render_base_shows (cmds : CmdBuffer) (strip : StripState) (now : Nat) :
    (Panel.render_base cmds strip now).shows = strip.shows := by
  unfold Panel.render_base
  apply foldl_shows_invariant
  intro s i
  dsimp only
  split <;> rfl

lemma render_nodes_shows (nodes : List ColourPos) (strip : StripState)
    (now : Nat) :
    (Panel.render_nodes nodes strip now).shows = strip.shows := by
  unfold Panel.render_nodes
  apply foldl_shows_invariant
  intro s i
  dsimp only
  split
  · rfl
  · split
    · rfl
    · split
      · rfl
      · rfl

/-- The step-3 walk covers the empty region `[LED_NUMBER, LED_TOTAL_CMDS)`,
so it returns its inputs unchanged. -/
lemma render_cmds_id (cmds : CmdBuffer) (strip : StripState) (now : Nat) :
    Panel.render_cmds cmds strip now = (cmds, strip) := rfl

/-- Claim C8: every `render()` pass returns the base-frame command slots
`0 .. N-1` (their positions, colours, durations, active flags) exactly as
it found them — here the whole command buffer is returned unchanged — and
increments the `show()` flush count by exactly one, via the single
`led_refresh()` at the end of the pass (all per-pixel writes inside the
pass use `refresh = false`). -/
theorem render_preserves_base_frame_single_show (nodes : List ColourPos)
    (cmds : CmdBuffer) (strip : StripState) (now : Nat) :
    (Panel.render nodes cmds strip now).1 = cmds
  ∧ (Panel.render nodes cmds strip now).2.shows = strip.shows + 1 := by
  constructor
  · rfl
  · simp only [Panel.render, render_cmds_id, led_refresh]
    rw [render_nodes_shows, render_base_shows]

/-- Claim C9: a component value whose numeric index is at or above
`Component::_COUNT` resolves to index 0 through `get`'s fallback branch,
so `get` yields the Clock node and every Panel operation routed through
`get` — `enable`, `disable`, `set_colour`, `set_position`, `set_step`,
`activity`, `data_transmission` — behaves exactly as if called on the
Clock component. -/
theorem get_fallback_targets_clock (c : Nat) (nodes : List ColourPos)
    (cmds : CmdBuffer) (colour : Colour) (pos : Nat) (step : Int)
    (a : Bool) (size now : Nat) (h : COMPONENT_COUNT ≤ c) :
    Panel.resolve c = 0
  ∧ Panel.get nodes c = Panel.get nodes 0
  ∧ Panel.enable nodes c = Panel.enable nodes 0
  ∧ Panel.disable nodes c = Panel.disable nodes 0
  ∧ Panel.set_colour nodes c colour = Panel.set_colour nodes 0 colour
  ∧ Panel.set_position nodes c pos = Panel.set_position nodes 0 pos
  ∧ Panel.set_step nodes c step = Panel.set_step nodes 0 step
  ∧ Panel.activity nodes cmds c a now = Panel.activity nodes cmds 0 a now
  ∧ Panel.data_transmission nodes cmds c size now =
      Panel.data_transmission nodes cmds 0 size now := by
  have h0 : Panel.resolve c = 0 := by unfold Panel.resolve; rw [if_pos h]
  have h1 : Panel.resolve 0 = 0 := by decide
  have hget : Panel.get nodes c = Panel.get nodes 0 := by
    unfold Panel.get; rw [h0, h1]
  refine ⟨h0, hget, ?_, ?_, ?_, ?_, ?_, ?_, ?_⟩
  · unfold Panel.enable; rw [h0, h1, hget]
  · unfold Panel.disable; rw [h0, h1, hget]
  · unfold Panel.set_colour; rw [h0, h1, hget]
  · unfold Panel.set_position; rw [h0, h1, hget]
  · unfold Panel.set_step; rw [h0, h1, hget]
  · unfold Panel.activity; rw [hget]
  · unfold Panel.data_transmission; rw [hget]

/-- Witness for C9: component index 9 (`>= _COUNT = 7`) on a concrete
two-node panel. -/
theorem get_fallback_targets_clock_witness :
    Panel.resolve 9 = 0
  ∧ Panel.get [c3_node, c3_boundary_node] 9 = Panel.get [c3_node, c3_boundary_node] 0
  ∧ Panel.enable [c3_node, c3_boundary_node] 9 = Panel.enable [c3_node, c3_boundary_node] 0
  ∧ Panel.disable [c3_node, c3_boundary_node] 9 = Panel.disable [c3_node, c3_boundary_node] 0
  ∧ Panel.set_colour [c3_node, c3_boundary_node] 9 ⟨1, 2, 3, 4⟩ =
      Panel.set_colour [c3_node, c3_boundary_node] 0 ⟨1, 2, 3, 4⟩
  ∧ Panel.set_position [c3_node, c3_boundary_node] 9 5 =
      Panel.set_position [c3_node, c3_boundary_node] 0 5
  ∧ Panel.set_step [c3_node, c3_boundary_node] 9 (-2) =
      Panel.set_step [c3_node, c3_boundary_node] 0 (-2)
  ∧ Panel.activity [c3_node, c3_boundary_node] [] 9 true 42 =
      Panel.activity [c3_node, c3_boundary_node] [] 0 true 42
  ∧ Panel.data_transmission [c3_node, c3_boundary_node] [] 9 4 42 =
      Panel.data_transmission [c3_node, c3_boundary_node] [] 0 4 42 :=
  get_fallback_targets_clock 9 [c3_node, c3_boundary_node] [] ⟨1, 2, 3, 4⟩
    5 (-2) true 4 42 (by decide)

/-- Claim C10 (counterexample): `leds_for_progress` does not return
`round_down(current/max * totalLeds)` on all inputs.  At
`(-1, 3, 10)` the exact value is `-10/3`: the cast truncates toward zero
giving `-3`, while `round_down` gives `-4`.  And even on non-negative
in-range inputs the binary32 rounding can cross an integer boundary: at
`(11749, 21517, 30782)` the code returns `16808` while `round_down` of
the exact value gives `16807`. -/
theorem leds_for_progress_not_round_down :
    leds_for_progress (-1) 3 10 = -3
  ∧ leds_for_progress_spec (-1) 3 10 = -4
  ∧ leds_for_progress (-1) 3 10 ≠ leds_for_progress_spec (-1) 3 10
  ∧ leds_for_progress 11749 21517 30782 = 16808
  ∧ leds_for_progress_spec 11749 21517 30782 = 16807
  ∧ leds_for_progress 11749 21517 30782 ≠
      leds_for_progress_spec 11749 21517 30782 := by
  decide

/-- Claim C10 (amended): `leds_for_progress` returns 0 whenever
`max = 0` (the division-by-zero guard); otherwise it returns the
truncation toward zero of the binary32 (`float`) evaluation of
`current/max * totalLeds`, which does not equal
`round_down(current/max * totalLeds)` in general — truncation differs
from `round_down` on negative quotients, and the two float roundings can
differ from the exact value by one even on non-negative inputs — but
does equal it on the helper's actual usage domain, the startup progress
indicator (`0 ≤ current < 8`, `0 < max_steps < 8`, `totalLeds = 30`). -/
theorem leds_for_progress_guard_and_round_down
    (current mx total_leds : Int) (c m : Nat) :
    (mx = 0 → leds_for_progress current mx total_leds = 0)
  ∧ (c < 8 → m < 8 → 0 < m →
       leds_for_progress (c : Int) (m : Int) 30 =
       leds_for_progress_spec (c : Int) (m : Int) 30) := by
  constructor
  · intro h
    unfold leds_for_progress
    rw [if_pos h]
  · intro hc hm hm0
    have H : ∀ c' : Nat, c' < 8 → ∀ m' : Nat, m' < 8 → 0 < m' →
        leds_for_progress (c' : Int) (m' : Int) 30 =
        leds_for_progress_spec (c' : Int) (m' : Int) 30 := by decide
    exact H c hc m hm hm0

/-- Witness for C10 (amended) at `(5, 0, 30)` for the guard and
`(3, 7, 30)` for the `round_down` agreement on the usage domain. -/
theorem leds_for_progress_guard_and_round_down_witness :
    leds_for_progress 5 0 30 = 0
  ∧ leds_for_progress ((3 : Nat) : Int) ((7 : Nat) : Int) 30 =
      leds_for_progress_spec ((3 : Nat) : Int) ((7 : Nat) : Int) 30 :=
  ⟨(leds_for_progress_guard_and_round_down 5 0 30 3 7).1 rfl,
   (leds_for_progress_guard_and_round_down 5 0 30 3 7).2
     (by decide) (by decide) (by decide)⟩

end CatFeeder
